import Mathlib

/-!
Shallow embedding of the OAuth install-flow coordinator (InstallProvider,
StateStore, authorize lookup) of this repository.  The implementation module
itself is not part of the shown sources (only its mocha test suite is), so the
operational definitions below are modelled from the specification (spec.md
sections 4.2 to 4.5 and 7), cross-checked against the behaviour asserted by the
test suite in src/packages/oauth/src/install-provider.spec.js.

Effectful collaborators (StateStore, token-exchange client, InstallationStore)
are modelled as explicit function parameters; the observable side effects of a
handler run (which collaborator calls and which lifecycle hooks fired, in which
order) are returned as an explicit event trace.
-/

deriving instance DecidableEq for Except

namespace SlackOAuth

/-- Modelled from the spec: InstallUrlOptions (section 3) — scopes, optional
user-level scopes, optional target team, optional redirect URI, optional
metadata string. -/
structure InstallUrlOptions where
  scopes : List String
  userScopes : List String := []
  teamId : Option String := none
  redirectUri : Option String := none
  metadata : Option String := none
deriving DecidableEq

/-- Modelled from the spec: the defined-but-empty options object handed to
failure hooks when nothing better is available ("callers must always receive a
defined options object even on early failure"). -/
def defaultInstallUrlOptions : InstallUrlOptions := { scopes := [] }

/-- Modelled from the spec: the StateStore contract (section 4.1) —
`generateStateParam` issues a token for the given options, `verifyStateParam`
decodes a token back into options or rejects (`none` models a
throw/rejection, surfaced as `StateVerificationError`). -/
structure StateStore where
  generateStateParam : InstallUrlOptions → String
  verifyStateParam : String → Option InstallUrlOptions

/-- The two protocol variants (legacy v1 vs current v2), selected once at
construction (spec section 4.2). -/
inductive AuthVersion where
  | v1
  | v2
deriving DecidableEq

/-- Modelled from the spec: the provider configuration surface relevant to the
claims (section 6): client id, protocol variant, stateVerification flag
(default on), legacyStateVerification flag (default off), static
InstallUrlOptions. -/
structure ProviderConfig where
  clientId : String
  authVersion : AuthVersion := .v2
  stateVerification : Bool := true
  legacyStateVerification : Bool := false
  installUrlOptions : Option InstallUrlOptions := none

/-- Error raised by install-URL generation (empty scopes). -/
inductive GenError where
  | generateInstallUrlError
deriving DecidableEq

/-- The generated authorize URL, kept in parsed form: path and the ordered
query-parameter association list, plus the state token that was embedded (if
any). -/
structure GeneratedUrl where
  path : String
  query : List (String × String)
  stateToken : Option String
deriving DecidableEq

/-- Modelled from the spec: `generateInstallUrl(options, stateVerification)`
(section 4.2).  Validates non-empty scopes, optionally obtains a state token
from the StateStore, and builds the authorize URL: path selected by protocol
variant, scopes comma-joined, `user_scope` emitted for the current (v2)
variant only.  The second component of the result records the arguments of
every `StateStore.generateStateParam` invocation the call performed. -/
def generateInstallUrl (store : StateStore) (cfg : ProviderConfig)
    (options : InstallUrlOptions) (stateVerification : Bool) :
    Except GenError GeneratedUrl × List InstallUrlOptions :=
  if options.scopes = [] then
    (.error .generateInstallUrlError, [])
  else
    let stateToken : Option String :=
      if stateVerification then some (store.generateStateParam options) else none
    let stateCalls : List InstallUrlOptions :=
      if stateVerification then [options] else []
    let path : String :=
      match cfg.authVersion with
      | .v1 => "/oauth/authorize"
      | .v2 => "/oauth/v2/authorize"
    let query : List (String × String) :=
      [("scope", String.intercalate "," options.scopes)]
        ++ (match stateToken with
            | some s => [("state", s)]
            | none => [])
        ++ [("client_id", cfg.clientId)]
        ++ (match options.redirectUri with
            | some r => [("redirect_uri", r)]
            | none => [])
        ++ (match options.teamId with
            | some t => [("team", t)]
            | none => [])
        ++ (match cfg.authVersion with
            | .v1 => []
            | .v2 =>
              if options.userScopes = [] then []
              else [("user_scope", String.intercalate "," options.userScopes)])
    (.ok { path := path, query := query, stateToken := stateToken }, stateCalls)

/-- The fixed well-known state-cookie key used by both handleInstallPath (when
setting the cookie) and handleCallback (when reading it back). -/
def stateCookieName : String := "slack-app-oauth-state"

/-- The cookie attributes set alongside the state value: secure, http-only,
path-scoped to /, max-age equal to the 600-second state validity window. -/
def stateCookieAttributes : String := "Secure; HttpOnly; Path=/; Max-Age=600"

/-- The full Set-Cookie header value for a given state token. -/
def stateCookieHeaderValue (token : String) : String :=
  stateCookieName ++ "=" ++ token ++ "; " ++ stateCookieAttributes

/-- The observable output of handleInstallPath: response headers written (in
order) and the URL redirected to, if a redirect was issued. -/
structure InstallPathOutput where
  headers : List (String × String)
  redirectedTo : Option GeneratedUrl
deriving DecidableEq

/-- Modelled from the spec: `handleInstallPath` (section 4.3).  Resolves the
effective InstallUrlOptions from the static configuration, calls
`generateInstallUrl` (propagating `GenerateInstallUrlError` with no response
written), lets the optional `beforeRedirection` hook run (its headers are
applied before, and independent of, the state cookie; a falsy return stops the
handler with the response as the hook left it), sets the state cookie when
state verification is active, and issues the redirect.  The hook is modelled
by the headers it sets plus its boolean return value. -/
def handleInstallPath (store : StateStore) (cfg : ProviderConfig)
    (hook : Option (List (String × String) × Bool)) :
    Except GenError Unit × InstallPathOutput :=
  let options := cfg.installUrlOptions.getD defaultInstallUrlOptions
  match (generateInstallUrl store cfg options cfg.stateVerification).fst with
  | .error e => (.error e, { headers := [], redirectedTo := none })
  | .ok u =>
    let hookHeaders := (hook.map Prod.fst).getD []
    let hookPass := (hook.map Prod.snd).getD true
    if hookPass = false then
      (.ok (), { headers := hookHeaders, redirectedTo := none })
    else
      let cookieHeaders : List (String × String) :=
        match u.stateToken with
        | some tok => [("Set-Cookie", stateCookieHeaderValue tok)]
        | none => []
      (.ok (), { headers := hookHeaders ++ cookieHeaders, redirectedTo := some u })

/-- Modelled from the spec: the persisted Installation credential bundle
(section 3), flattened to its scalar fields. -/
structure Installation where
  teamId : Option String := none
  teamName : Option String := none
  enterpriseId : Option String := none
  enterpriseName : Option String := none
  botToken : Option String := none
  botId : Option String := none
  botUserId : Option String := none
  botScopes : List String := []
  botRefreshToken : Option String := none
  botTokenExpiresAt : Option Nat := none
  userToken : Option String := none
  userId : Option String := none
  appId : Option String := none
  tokenType : Option String := none
  isEnterpriseInstall : Bool := false
deriving DecidableEq

/-- The callback request as seen by handleCallback: the `error`, `code` and
`state` query parameters and the parsed cookies of the request. -/
structure CallbackRequest where
  error : Option String := none
  code : Option String := none
  state : Option String := none
  cookies : List (String × String) := []
deriving DecidableEq

/-- The error taxonomy of the callback pipeline (spec section 7). -/
inductive CBError where
  | authorizationError
  | missingCodeError
  | missingStateError
  | cookieNotFoundError
  | stateVerificationError
deriving DecidableEq

/-- Observable events of one handleCallback run, in execution order.  The
failure-hook events record the options object handed to the hook; `none`
models a JavaScript `undefined` argument. -/
inductive Ev where
  | verifyState (token : String)
  | beforeInstallationHook
  | tokenExchange (code : String)
  | afterInstallationHook
  | storeInstallationCall
  | successHook
  | successAsyncHook
  | failureHook (e : CBError) (opts : Option InstallUrlOptions)
  | failureAsyncHook (e : CBError) (opts : Option InstallUrlOptions)
deriving DecidableEq

def Ev.isVerifyState : Ev → Bool
  | .verifyState _ => true
  | _ => false

def Ev.isTokenExchange : Ev → Bool
  | .tokenExchange _ => true
  | _ => false

def Ev.isStoreInstallation : Ev → Bool
  | .storeInstallationCall => true
  | _ => false

def Ev.isSuccessHook : Ev → Bool
  | .successHook => true
  | _ => false

def Ev.isSuccessAsyncHook : Ev → Bool
  | .successAsyncHook => true
  | _ => false

def Ev.isFailureHook : Ev → Bool
  | .failureHook _ _ => true
  | _ => false

def Ev.isFailureAsyncHook : Ev → Bool
  | .failureAsyncHook _ _ => true
  | _ => false

/-- True unless the event is a failure-hook invocation whose options argument
is undefined. -/
def Ev.failureOptionsDefined : Ev → Bool
  | .failureHook _ opts => opts.isSome
  | .failureAsyncHook _ opts => opts.isSome
  | _ => true

/-- Modelled from the spec: the CallbackOptions hook configuration (sections
4.4 and 9) — which of the four terminal hooks are defined, and the awaited
boolean results of the two early-exit hooks (`none` when the hook is absent,
`some b` when it is present and returns `b`). -/
structure CallbackOptions where
  hasSuccess : Bool := true
  hasSuccessAsync : Bool := false
  hasFailure : Bool := true
  hasFailureAsync : Bool := false
  beforeInstallation : Option Bool := none
  afterInstallation : Option Bool := none
deriving DecidableEq

/-- The external collaborators of one callback run: the StateStore, the token
exchange client (`none` models a transport/authorization rejection) and the
InstallationStore's persistence outcome. -/
structure CallbackEnv where
  stateStore : StateStore
  exchangeToken : String → Option Installation
  storeInstallationOk : Installation → Bool

/-- Terminal outcome of one handleCallback run: success path completed, a
failure was routed to the failure hooks, or an early-exit hook halted the
pipeline. -/
inductive CallbackOutcome where
  | succeeded
  | failed (e : CBError)
  | halted
deriving DecidableEq

/-- The failure-handler events: `failure` then `failureAsync`, each only when
defined, both handed the error and a defined options object. -/
def failEvents (o : CallbackOptions) (e : CBError) (opts : InstallUrlOptions) : List Ev :=
  (if o.hasFailure then [Ev.failureHook e (some opts)] else [])
    ++ (if o.hasFailureAsync then [Ev.failureAsyncHook e (some opts)] else [])

/-- Modelled from the spec: steps 3 to 6 of the callback decision table
(section 4.4).  With state verification enabled: missing `state` fails with
`MissingStateError`; an absent or mismatched state cookie fails with
`CookieNotFoundError` unless `legacyStateVerification` relaxes the check to a
pass-through; then `StateStore.verifyStateParam` decodes the token (a
rejection fails with `StateVerificationError`) and its result becomes the
effective InstallUrlOptions.  With state verification disabled the configured
options are used directly. -/
def resolveInstallOptions (cfg : ProviderConfig) (store : StateStore)
    (req : CallbackRequest) : Except CBError (InstallUrlOptions × List Ev) :=
  if cfg.stateVerification = true then
    match req.state with
    | none => .error .missingStateError
    | some s =>
      if List.lookup stateCookieName req.cookies = some s
          ∨ cfg.legacyStateVerification = true then
        match store.verifyStateParam s with
        | some opts => .ok (opts, [Ev.verifyState s])
        | none => .error .stateVerificationError
      else
        .error .cookieNotFoundError
  else
    .ok (cfg.installUrlOptions.getD defaultInstallUrlOptions, [])

/-- Modelled from the spec: steps 7 to 12 of the callback decision table
(section 4.4).  `beforeInstallation` returning false halts before any token
exchange; the token exchange failing surfaces as `AuthorizationError`;
`afterInstallation` returning false halts before persistence and before any
success or failure hook; a persistence failure surfaces as
`AuthorizationError`; otherwise `success` then `successAsync` run in that
fixed order. -/
def installPhase (env : CallbackEnv) (o : CallbackOptions) (code : String)
    (installOptions : InstallUrlOptions) (ev0 : List Ev) :
    CallbackOutcome × List Ev :=
  let evB : List Ev :=
    if o.beforeInstallation.isSome then [Ev.beforeInstallationHook] else []
  if o.beforeInstallation = some false then
    (.halted, ev0 ++ evB)
  else
    let ev1 := ev0 ++ evB ++ [Ev.tokenExchange code]
    match env.exchangeToken code with
    | none =>
      (.failed .authorizationError,
        ev1 ++ failEvents o .authorizationError installOptions)
    | some inst =>
      let evA : List Ev :=
        if o.afterInstallation.isSome then [Ev.afterInstallationHook] else []
      if o.afterInstallation = some false then
        (.halted, ev1 ++ evA)
      else
        let ev2 := ev1 ++ evA ++ [Ev.storeInstallationCall]
        if env.storeInstallationOk inst then
          (.succeeded,
            ev2 ++ (if o.hasSuccess then [Ev.successHook] else [])
              ++ (if o.hasSuccessAsync then [Ev.successAsyncHook] else []))
        else
          (.failed .authorizationError,
            ev2 ++ failEvents o .authorizationError installOptions)

/-- Modelled from the spec: `handleCallback` (section 4.4).  Step 1: a remote
`error` query parameter fails with `AuthorizationError`.  Step 2: a missing
`code` fails with `MissingCodeError`.  Steps 3 to 6 are `resolveInstallOptions`
and steps 7 to 12 are `installPhase`.  Every failure is funneled to the
failure hooks together with the best-effort options available at the time of
the failure (the configured options, or defined-but-empty defaults). -/
def handleCallback (cfg : ProviderConfig) (env : CallbackEnv)
    (o : CallbackOptions) (req : CallbackRequest) : CallbackOutcome × List Ev :=
  let fallback := cfg.installUrlOptions.getD defaultInstallUrlOptions
  match req.error with
  | some _ =>
    (.failed .authorizationError, failEvents o .authorizationError fallback)
  | none =>
    match req.code with
    | none => (.failed .missingCodeError, failEvents o .missingCodeError fallback)
    | some code =>
      match resolveInstallOptions cfg env.stateStore req with
      | .error e => (.failed e, failEvents o e fallback)
      | .ok (installOptions, ev0) => installPhase env o code installOptions ev0

/-- Modelled from the spec: the InstallQuery lookup key (section 3). -/
structure InstallQuery where
  teamId : Option String := none
  enterpriseId : Option String := none
  userId : Option String := none
deriving DecidableEq

/-- The minimal credential view returned by `authorize` (section 4.5). -/
structure AuthorizeResult where
  botToken : Option String
  botId : Option String
  botUserId : Option String
  userToken : Option String
deriving DecidableEq

/-- The `authorize` failure, carrying the originating query as context. -/
inductive AuthorizeError where
  | authorizationError (source : InstallQuery)
deriving DecidableEq

/-- The projection of a stored Installation into the minimal credential view:
bot token, bot id, bot user id, user token. -/
def authorizeProjection (i : Installation) : AuthorizeResult :=
  { botToken := i.botToken
    botId := i.botId
    botUserId := i.botUserId
    userToken := i.userToken }

/-- Modelled from the spec: `authorize(installQuery)` (section 4.5) — calls
`InstallationStore.fetchInstallation`; a missing record or a rejected fetch
(both modelled as `none`) fails with `AuthorizationError` carrying the query;
otherwise the stored record is projected into the credential view. -/
def authorize (fetchInstallation : InstallQuery → Option Installation)
    (q : InstallQuery) : Except AuthorizeError AuthorizeResult :=
  match fetchInstallation q with
  | none => .error (.authorizationError q)
  | some i => .ok (authorizeProjection i)

/-- A concrete in-memory InstallationStore keyed by team id, as in the test
suite's memory database. -/
def memFetchInstallation (db : List (String × Installation))
    (q : InstallQuery) : Option Installation :=
  q.teamId.bind (fun t => List.lookup t db)

/-- Modelled from the spec: `authorize` over an in-memory store with explicit
state passing.  The operation only calls `fetchInstallation`, so the store
state passes through unchanged ("read-only and must not mutate the store"). -/
def authorizeOnStore (db : List (String × Installation)) (q : InstallQuery) :
    Except AuthorizeError AuthorizeResult × List (String × Installation) :=
  (authorize (memFetchInstallation db) q, db)

/-! ### Concrete fixtures, mirroring the test suite's fakes -/

/-- A StateStore fake issuing the fixed token "fakeState" and accepting every
token, as in the test suite. -/
def sampleStateStore : StateStore :=
  { generateStateParam := fun _ => "fakeState"
    verifyStateParam := fun _ => some defaultInstallUrlOptions }

/-- The stored installation fixture of the test suite, flattened. -/
def sampleInstallation : Installation :=
  { teamId := some "test-team-id"
    teamName := some "team-name"
    enterpriseId := some "test-enterprise-id"
    enterpriseName := some "ent-name"
    botToken := some "botToken"
    botId := some "botId"
    botUserId := some "botUserId"
    botScopes := ["chat:write"]
    userToken := some "userToken"
    userId := some "userId"
    appId := some "fakeAppId"
    tokenType := some "tokenType" }

/-- A callback environment whose token exchange and persistence always
succeed. -/
def sampleEnv : CallbackEnv :=
  { stateStore := sampleStateStore
    exchangeToken := fun _ => some sampleInstallation
    storeInstallationOk := fun _ => true }

/-- The install-URL options fixture of the test suite. -/
def sampleOptions : InstallUrlOptions :=
  { scopes := ["channels:read"]
    userScopes := ["chat:write:user"]
    teamId := some "T12345"
    redirectUri := some "https://mysite.com/slack/redirect"
    metadata := some "foo" }

/-- A provider configured with state verification on and the legacy relaxation
off (the defaults). -/
def sampleConfig : ProviderConfig :=
  { clientId := "MY_ID", installUrlOptions := some sampleOptions }

/-- The same provider with the legacy state-verification relaxation opted in. -/
def sampleLegacyConfig : ProviderConfig :=
  { clientId := "MY_ID", installUrlOptions := some sampleOptions
    legacyStateVerification := true }

/-- Callback options with all four terminal hooks defined and no early-exit
hooks. -/
def sampleCbOptions : CallbackOptions :=
  { hasSuccess := true, hasSuccessAsync := true
    hasFailure := true, hasFailureAsync := true }

/-! ### Helper lemmas about the callback pipeline -/

theorem installPhase_happy (env : CallbackEnv) (o : CallbackOptions)
    (code : String) (installOptions : InstallUrlOptions) (ev0 : List Ev)
    (inst : Installation)
    (hb : o.beforeInstallation ≠ some false)
    (ha : o.afterInstallation ≠ some false)
    (hex : env.exchangeToken code = some inst)
    (hst : env.storeInstallationOk inst = true) :
    installPhase env o code installOptions ev0 =
      (.succeeded,
        ev0 ++ (if o.beforeInstallation.isSome then [Ev.beforeInstallationHook] else [])
          ++ [Ev.tokenExchange code]
          ++ (if o.afterInstallation.isSome then [Ev.afterInstallationHook] else [])
          ++ [Ev.storeInstallationCall]
          ++ (if o.hasSuccess then [Ev.successHook] else [])
          ++ (if o.hasSuccessAsync then [Ev.successAsyncHook] else [])) := by
  simp [installPhase, hex, hst, if_neg hb, if_neg ha, List.append_assoc]

theorem resolveInstallOptions_ok_events (cfg : ProviderConfig)
    (store : StateStore) (req : CallbackRequest)
    (opts : InstallUrlOptions) (ev0 : List Ev)
    (h : resolveInstallOptions cfg store req = .ok (opts, ev0)) :
    ev0 = [] ∨ ∃ s, ev0 = [Ev.verifyState s] := by
  unfold resolveInstallOptions at h
  split at h
  · cases hs : req.state with
    | none => simp [hs] at h
    | some s =>
      simp only [hs] at h
      split at h
      · cases hv : store.verifyStateParam s with
        | none => simp [hv] at h
        | some o2 =>
          simp only [hv, Except.ok.injEq, Prod.mk.injEq] at h
          exact Or.inr ⟨s, h.2.symm⟩
      · simp at h
  · simp only [Except.ok.injEq, Prod.mk.injEq] at h
    exact Or.inl h.2.symm

theorem resolveInstallOptions_ok_countP (cfg : ProviderConfig)
    (store : StateStore) (req : CallbackRequest)
    (opts : InstallUrlOptions) (ev0 : List Ev) (p : Ev → Bool)
    (h : resolveInstallOptions cfg store req = .ok (opts, ev0))
    (hp : ∀ s, p (Ev.verifyState s) = false) :
    ev0.countP p = 0 := by
  rcases resolveInstallOptions_ok_events cfg store req opts ev0 h with h0 | ⟨s, h0⟩
  · simp [h0]
  · simp [h0, List.countP_cons, hp s]

theorem installPhase_failed_shape (env : CallbackEnv) (o : CallbackOptions)
    (code : String) (installOptions : InstallUrlOptions) (ev0 : List Ev)
    (e : CBError)
    (h : (installPhase env o code installOptions ev0).fst = .failed e) :
    e = .authorizationError ∧
    ∃ pre, (installPhase env o code installOptions ev0).snd
        = pre ++ failEvents o e installOptions
      ∧ pre.countP Ev.isFailureHook = ev0.countP Ev.isFailureHook
      ∧ pre.countP Ev.isFailureAsyncHook = ev0.countP Ev.isFailureAsyncHook := by
  by_cases hb : o.beforeInstallation = some false
  · simp [installPhase, hb] at h
  · cases hex : env.exchangeToken code with
    | none =>
      have he : e = .authorizationError := by
        simp [installPhase, hb, hex] at h
        exact h.symm
      subst he
      refine ⟨rfl,
        ev0 ++ (if o.beforeInstallation.isSome then [Ev.beforeInstallationHook] else [])
          ++ [Ev.tokenExchange code], ?_, ?_, ?_⟩
      · simp [installPhase, hb, hex, List.append_assoc]
      · cases hbi : o.beforeInstallation <;>
          simp [hbi, List.countP_append, List.countP_cons, Ev.isFailureHook]
      · cases hbi : o.beforeInstallation <;>
          simp [hbi, List.countP_append, List.countP_cons, Ev.isFailureAsyncHook]
    | some inst =>
      by_cases ha : o.afterInstallation = some false
      · simp [installPhase, hb, hex, ha] at h
      · cases hst : env.storeInstallationOk inst with
        | true => simp [installPhase, hb, hex, ha, hst] at h
        | false =>
          have he : e = .authorizationError := by
            simp [installPhase, hb, hex, ha, hst] at h
            exact h.symm
          subst he
          refine ⟨rfl,
            ev0 ++ (if o.beforeInstallation.isSome then [Ev.beforeInstallationHook] else [])
              ++ [Ev.tokenExchange code]
              ++ (if o.afterInstallation.isSome then [Ev.afterInstallationHook] else [])
              ++ [Ev.storeInstallationCall], ?_, ?_, ?_⟩
          · simp [installPhase, hb, hex, ha, hst, List.append_assoc]
          · cases hbi : o.beforeInstallation <;> cases hai : o.afterInstallation <;>
              simp [hbi, hai, List.countP_append, List.countP_cons, Ev.isFailureHook]
          · cases hbi : o.beforeInstallation <;> cases hai : o.afterInstallation <;>
              simp [hbi, hai, List.countP_append, List.countP_cons, Ev.isFailureAsyncHook]

theorem handleCallback_failed_shape (cfg : ProviderConfig) (env : CallbackEnv)
    (o : CallbackOptions) (req : CallbackRequest) (e : CBError)
    (h : (handleCallback cfg env o req).fst = .failed e) :
    ∃ pre opts, (handleCallback cfg env o req).snd = pre ++ failEvents o e opts
      ∧ pre.countP Ev.isFailureHook = 0
      ∧ pre.countP Ev.isFailureAsyncHook = 0 := by
  cases herr : req.error with
  | some msg =>
    have he : e = .authorizationError := by
      simp [handleCallback, herr] at h
      exact h.symm
    subst he
    exact ⟨[], cfg.installUrlOptions.getD defaultInstallUrlOptions,
      by simp [handleCallback, herr], rfl, rfl⟩
  | none =>
    cases hcode : req.code with
    | none =>
      have he : e = .missingCodeError := by
        simp [handleCallback, herr, hcode] at h
        exact h.symm
      subst he
      exact ⟨[], cfg.installUrlOptions.getD defaultInstallUrlOptions,
        by simp [handleCallback, herr, hcode], rfl, rfl⟩
    | some code =>
      cases hres : resolveInstallOptions cfg env.stateStore req with
      | error e2 =>
        have he : e = e2 := by
          simp [handleCallback, herr, hcode, hres] at h
          exact h.symm
        subst he
        exact ⟨[], cfg.installUrlOptions.getD defaultInstallUrlOptions,
          by simp [handleCallback, herr, hcode, hres], rfl, rfl⟩
      | ok pair =>
        obtain ⟨opts0, ev0⟩ := pair
        have hph : (installPhase env o code opts0 ev0).fst = .failed e := by
          simpa [handleCallback, herr, hcode, hres] using h
        obtain ⟨-, pre, hpre, hc1, hc2⟩ :=
          installPhase_failed_shape env o code opts0 ev0 e hph
        have hz1 : ev0.countP Ev.isFailureHook = 0 :=
          resolveInstallOptions_ok_countP cfg env.stateStore req opts0 ev0 _ hres
            (fun _ => rfl)
        have hz2 : ev0.countP Ev.isFailureAsyncHook = 0 :=
          resolveInstallOptions_ok_countP cfg env.stateStore req opts0 ev0 _ hres
            (fun _ => rfl)
        refine ⟨pre, opts0, ?_, ?_, ?_⟩
        · simpa [handleCallback, herr, hcode, hres] using hpre
        · omega
        · omega

/-! ### Claim theorems -/

/-- Claim C3: a callback whose query has no `code` (and no `error`) fails
with MissingCodeError, performs zero token-exchange and zero storeInstallation
calls, runs the failure hooks, and every failure-hook invocation receives a
defined InstallUrlOptions object. -/
theorem handleCallback_missing_code (cfg : ProviderConfig) (env : CallbackEnv)
    (o : CallbackOptions) (req : CallbackRequest)
    (herr : req.error = none) (hcode : req.code = none) :
    (handleCallback cfg env o req).fst = .failed .missingCodeError
    ∧ (handleCallback cfg env o req).snd.countP Ev.isTokenExchange = 0
    ∧ (handleCallback cfg env o req).snd.countP Ev.isStoreInstallation = 0
    ∧ (o.hasFailure = true →
        (handleCallback cfg env o req).snd.countP Ev.isFailureHook = 1)
    ∧ (o.hasFailureAsync = true →
        (handleCallback cfg env o req).snd.countP Ev.isFailureAsyncHook = 1)
    ∧ ∀ ev ∈ (handleCallback cfg env o req).snd,
        ev.failureOptionsDefined = true := by
  have hf : (handleCallback cfg env o req).fst = .failed .missingCodeError := by
    simp [handleCallback, herr, hcode]
  have ht : (handleCallback cfg env o req).snd
      = failEvents o .missingCodeError
          (cfg.installUrlOptions.getD defaultInstallUrlOptions) := by
    simp [handleCallback, herr, hcode]
  refine ⟨hf, ?_, ?_, ?_, ?_, ?_⟩ <;> rw [ht] <;>
    cases hF : o.hasFailure <;> cases hFA : o.hasFailureAsync <;>
      simp [failEvents, hF, hFA, Ev.isTokenExchange, Ev.isStoreInstallation,
        Ev.isFailureHook, Ev.isFailureAsyncHook, Ev.failureOptionsDefined]

/-- Claim C4: when the callback reaches the beforeInstallation hook and the
hook returns a falsy value, the handler stops immediately: the trace ends at
the hook invocation, with no token exchange, no storeInstallation, and no
success or failure hooks, so the response is left exactly as the hook mutated
it. -/
theorem handleCallback_beforeInstallation_falsy (cfg : ProviderConfig)
    (env : CallbackEnv) (o : CallbackOptions) (req : CallbackRequest)
    (c : String) (opts0 : InstallUrlOptions) (ev0 : List Ev)
    (herr : req.error = none) (hcode : req.code = some c)
    (hres : resolveInstallOptions cfg env.stateStore req = .ok (opts0, ev0))
    (hb : o.beforeInstallation = some false) :
    (handleCallback cfg env o req).fst = .halted
    ∧ (handleCallback cfg env o req).snd = ev0 ++ [Ev.beforeInstallationHook]
    ∧ (handleCallback cfg env o req).snd.countP Ev.isTokenExchange = 0
    ∧ (handleCallback cfg env o req).snd.countP Ev.isStoreInstallation = 0
    ∧ (handleCallback cfg env o req).snd.countP Ev.isSuccessHook = 0
    ∧ (handleCallback cfg env o req).snd.countP Ev.isSuccessAsyncHook = 0
    ∧ (handleCallback cfg env o req).snd.countP Ev.isFailureHook = 0
    ∧ (handleCallback cfg env o req).snd.countP Ev.isFailureAsyncHook = 0 := by
  have hf : (handleCallback cfg env o req).fst = .halted := by
    simp [handleCallback, herr, hcode, hres, installPhase, hb]
  have ht : (handleCallback cfg env o req).snd
      = ev0 ++ [Ev.beforeInstallationHook] := by
    simp [handleCallback, herr, hcode, hres, installPhase, hb]
  rcases resolveInstallOptions_ok_events cfg env.stateStore req opts0 ev0 hres
    with h0 | ⟨s, h0⟩ <;> subst h0 <;>
    refine ⟨hf, ht, ?_, ?_, ?_, ?_, ?_, ?_⟩ <;> rw [ht] <;>
      simp [List.countP_cons, List.countP_append, Ev.isTokenExchange,
        Ev.isStoreInstallation, Ev.isSuccessHook, Ev.isSuccessAsyncHook,
        Ev.isFailureHook, Ev.isFailureAsyncHook]

/-- Claim C5: when the token exchange succeeded and the afterInstallation hook
returns a falsy value, the handler stops immediately: no storeInstallation
call, and neither success hook nor failure hook runs. -/
theorem handleCallback_afterInstallation_falsy (cfg : ProviderConfig)
    (env : CallbackEnv) (o : CallbackOptions) (req : CallbackRequest)
    (c : String) (opts0 : InstallUrlOptions) (ev0 : List Ev)
    (inst : Installation)
    (herr : req.error = none) (hcode : req.code = some c)
    (hres : resolveInstallOptions cfg env.stateStore req = .ok (opts0, ev0))
    (hb : o.beforeInstallation ≠ some false)
    (hex : env.exchangeToken c = some inst)
    (ha : o.afterInstallation = some false) :
    (handleCallback cfg env o req).fst = .halted
    ∧ (handleCallback cfg env o req).snd
        = ev0 ++ (if o.beforeInstallation.isSome then [Ev.beforeInstallationHook] else [])
          ++ [Ev.tokenExchange c] ++ [Ev.afterInstallationHook]
    ∧ (handleCallback cfg env o req).snd.countP Ev.isStoreInstallation = 0
    ∧ (handleCallback cfg env o req).snd.countP Ev.isSuccessHook = 0
    ∧ (handleCallback cfg env o req).snd.countP Ev.isSuccessAsyncHook = 0
    ∧ (handleCallback cfg env o req).snd.countP Ev.isFailureHook = 0
    ∧ (handleCallback cfg env o req).snd.countP Ev.isFailureAsyncHook = 0 := by
  have hf : (handleCallback cfg env o req).fst = .halted := by
    simp [handleCallback, herr, hcode, hres, installPhase, hb, hex, ha]
  have ht : (handleCallback cfg env o req).snd
      = ev0 ++ (if o.beforeInstallation.isSome then [Ev.beforeInstallationHook] else [])
        ++ [Ev.tokenExchange c] ++ [Ev.afterInstallationHook] := by
    simp [handleCallback, herr, hcode, hres, installPhase, hb, hex, ha,
      List.append_assoc]
  rcases resolveInstallOptions_ok_events cfg env.stateStore req opts0 ev0 hres
    with h0 | ⟨s, h0⟩ <;> subst h0 <;>
    refine ⟨hf, ht, ?_, ?_, ?_, ?_, ?_⟩ <;> rw [ht] <;>
      cases hbi : o.beforeInstallation <;>
        simp [hbi, List.countP_append, List.countP_cons,
          Ev.isStoreInstallation, Ev.isSuccessHook, Ev.isSuccessAsyncHook,
          Ev.isFailureHook, Ev.isFailureAsyncHook]

/-- Claim C1: with state verification enabled and both `code` and `state`
present, an absent or mismatched state cookie fails the callback with the
CSRF error `CookieNotFoundError` and runs the failure hooks when
`legacyStateVerification` is off, while the same request passes through and
runs the success path when it is on. -/
theorem handleCallback_state_cookie_mismatch (cfg : ProviderConfig)
    (env : CallbackEnv) (o : CallbackOptions) (req : CallbackRequest)
    (c s : String)
    (hsv : cfg.stateVerification = true)
    (herr : req.error = none) (hcode : req.code = some c)
    (hstate : req.state = some s)
    (hcookie : ¬ List.lookup stateCookieName req.cookies = some s) :
    (cfg.legacyStateVerification = false →
      (handleCallback cfg env o req).fst = .failed .cookieNotFoundError
      ∧ (o.hasFailure = true →
          (handleCallback cfg env o req).snd.countP Ev.isFailureHook = 1)
      ∧ (o.hasFailureAsync = true →
          (handleCallback cfg env o req).snd.countP Ev.isFailureAsyncHook = 1))
    ∧ (cfg.legacyStateVerification = true →
      ∀ opts inst, env.stateStore.verifyStateParam s = some opts →
        o.beforeInstallation ≠ some false → o.afterInstallation ≠ some false →
        env.exchangeToken c = some inst → env.storeInstallationOk inst = true →
        (handleCallback cfg env o req).fst = .succeeded
        ∧ (o.hasSuccess = true →
            (handleCallback cfg env o req).snd.countP Ev.isSuccessHook = 1)) := by
  constructor
  · intro hleg
    have hres : resolveInstallOptions cfg env.stateStore req
        = .error .cookieNotFoundError := by
      simp [resolveInstallOptions, hsv, hstate, hcookie, hleg]
    have hf : (handleCallback cfg env o req).fst = .failed .cookieNotFoundError := by
      simp [handleCallback, herr, hcode, hres]
    have ht : (handleCallback cfg env o req).snd
        = failEvents o .cookieNotFoundError
            (cfg.installUrlOptions.getD defaultInstallUrlOptions) := by
      simp [handleCallback, herr, hcode, hres]
    refine ⟨hf, ?_, ?_⟩ <;> rw [ht] <;> intro hF <;>
      cases hG : o.hasFailure <;> cases hGA : o.hasFailureAsync <;>
        simp_all [failEvents, List.countP_cons, Ev.isFailureHook,
          Ev.isFailureAsyncHook]
  · intro hleg opts inst hverify hb ha hex hst
    have hres : resolveInstallOptions cfg env.stateStore req
        = .ok (opts, [Ev.verifyState s]) := by
      simp [resolveInstallOptions, hsv, hstate, hleg, hverify]
    have hcb : handleCallback cfg env o req
        = installPhase env o c opts [Ev.verifyState s] := by
      simp [handleCallback, herr, hcode, hres]
    rw [hcb, installPhase_happy env o c opts _ inst hb ha hex hst]
    refine ⟨rfl, ?_⟩
    intro hS
    cases hbi : o.beforeInstallation <;> cases hai : o.afterInstallation <;>
      cases hSA : o.hasSuccessAsync <;>
        simp [hbi, hai, hS, hSA, List.countP_append, List.countP_cons,
          Ev.isSuccessHook]

/-- Claim C2: on a callback whose `state` matches the state cookie and whose
StateStore accepts the token, exactly one storeInstallation call happens and
the success hooks run exactly once each, `success` before `successAsync`,
both in the returned (fully awaited) trace before the handler returns; and on
any failing callback the failure pair runs as `failure` then `failureAsync`
in that fixed order. -/
theorem handleCallback_success_hook_order (cfg : ProviderConfig)
    (env : CallbackEnv) (o : CallbackOptions) (req : CallbackRequest)
    (c s : String) (opts : InstallUrlOptions) (inst : Installation)
    (hsv : cfg.stateVerification = true)
    (herr : req.error = none) (hcode : req.code = some c)
    (hstate : req.state = some s)
    (hcookie : List.lookup stateCookieName req.cookies = some s)
    (hverify : env.stateStore.verifyStateParam s = some opts)
    (hb : o.beforeInstallation ≠ some false)
    (ha : o.afterInstallation ≠ some false)
    (hex : env.exchangeToken c = some inst)
    (hst : env.storeInstallationOk inst = true)
    (hS : o.hasSuccess = true) (hSA : o.hasSuccessAsync = true) :
    (∃ pre, (handleCallback cfg env o req).snd
        = pre ++ [Ev.storeInstallationCall, Ev.successHook, Ev.successAsyncHook]
      ∧ pre.countP Ev.isStoreInstallation = 0
      ∧ pre.countP Ev.isSuccessHook = 0
      ∧ pre.countP Ev.isSuccessAsyncHook = 0)
    ∧ ∀ req2 e2, (handleCallback cfg env o req2).fst = .failed e2 →
        o.hasFailure = true → o.hasFailureAsync = true →
        ∃ pre2 x, (handleCallback cfg env o req2).snd
            = pre2 ++ [Ev.failureHook e2 x, Ev.failureAsyncHook e2 x]
          ∧ pre2.countP Ev.isFailureHook = 0
          ∧ pre2.countP Ev.isFailureAsyncHook = 0 := by
  constructor
  · have hres : resolveInstallOptions cfg env.stateStore req
        = .ok (opts, [Ev.verifyState s]) := by
      simp [resolveInstallOptions, hsv, hstate, hcookie, hverify]
    have hcb : handleCallback cfg env o req
        = installPhase env o c opts [Ev.verifyState s] := by
      simp [handleCallback, herr, hcode, hres]
    rw [hcb, installPhase_happy env o c opts _ inst hb ha hex hst]
    refine ⟨[Ev.verifyState s]
      ++ (if o.beforeInstallation.isSome then [Ev.beforeInstallationHook] else [])
      ++ [Ev.tokenExchange c]
      ++ (if o.afterInstallation.isSome then [Ev.afterInstallationHook] else []),
      ?_, ?_, ?_, ?_⟩ <;>
      cases hbi : o.beforeInstallation <;> cases hai : o.afterInstallation <;>
        simp [hbi, hai, hS, hSA, List.append_assoc, List.countP_append,
          List.countP_cons, Ev.isStoreInstallation, Ev.isSuccessHook,
          Ev.isSuccessAsyncHook]
  · intro req2 e2 h2 hF hFA
    obtain ⟨pre2, opts2, htr, hc1, hc2⟩ :=
      handleCallback_failed_shape cfg env o req2 e2 h2
    refine ⟨pre2, some opts2, ?_, hc1, hc2⟩
    simpa [failEvents, hF, hFA] using htr

/-- Claim C6: with non-empty scopes, the generated install URL under the
current (v2) protocol has path /oauth/v2/authorize and query parameters that
losslessly round-trip the inputs (comma-joined scopes and user scopes, team
target, redirect URI, StateStore-issued state token); under the legacy (v1)
protocol the path is /oauth/authorize and no `user_scope` parameter is
emitted. -/
theorem generateInstallUrl_roundtrip (store : StateStore) (cfg : ProviderConfig)
    (options : InstallUrlOptions) (t r : String)
    (hs : options.scopes ≠ []) (hus : options.userScopes ≠ [])
    (ht : options.teamId = some t) (hr : options.redirectUri = some r) :
    (cfg.authVersion = .v2 →
      (generateInstallUrl store cfg options true).fst
        = .ok
            { path := "/oauth/v2/authorize",
              query := [("scope", String.intercalate "," options.scopes),
                ("state", store.generateStateParam options),
                ("client_id", cfg.clientId),
                ("redirect_uri", r), ("team", t),
                ("user_scope", String.intercalate "," options.userScopes)],
              stateToken := some (store.generateStateParam options) }
      ∧ ∀ u, (generateInstallUrl store cfg options true).fst = .ok u →
          u.path = "/oauth/v2/authorize"
          ∧ u.query.lookup "scope" = some (String.intercalate "," options.scopes)
          ∧ u.query.lookup "user_scope"
              = some (String.intercalate "," options.userScopes)
          ∧ u.query.lookup "team" = some t
          ∧ u.query.lookup "redirect_uri" = some r
          ∧ u.query.lookup "state" = some (store.generateStateParam options))
    ∧ (cfg.authVersion = .v1 →
      ∀ u, (generateInstallUrl store cfg options true).fst = .ok u →
        u.path = "/oauth/authorize"
        ∧ u.query.lookup "scope" = some (String.intercalate "," options.scopes)
        ∧ u.query.lookup "team" = some t
        ∧ u.query.lookup "redirect_uri" = some r
        ∧ u.query.lookup "state" = some (store.generateStateParam options)
        ∧ u.query.lookup "user_scope" = none) := by
  constructor
  · intro hv
    have hfst : (generateInstallUrl store cfg options true).fst
        = .ok
            { path := "/oauth/v2/authorize",
              query := [("scope", String.intercalate "," options.scopes),
                ("state", store.generateStateParam options),
                ("client_id", cfg.clientId),
                ("redirect_uri", r), ("team", t),
                ("user_scope", String.intercalate "," options.userScopes)],
              stateToken := some (store.generateStateParam options) } := by
      simp [generateInstallUrl, hs, hv, ht, hr, hus]
    refine ⟨hfst, ?_⟩
    intro u hu
    rw [hfst] at hu
    obtain rfl : _ = u := Except.ok.inj hu
    refine ⟨rfl, ?_, ?_, ?_, ?_, ?_⟩ <;> rfl
  · intro hv u hu
    have hfst : (generateInstallUrl store cfg options true).fst
        = .ok
            { path := "/oauth/authorize",
              query := [("scope", String.intercalate "," options.scopes),
                ("state", store.generateStateParam options),
                ("client_id", cfg.clientId),
                ("redirect_uri", r), ("team", t)],
              stateToken := some (store.generateStateParam options) } := by
      simp [generateInstallUrl, hs, hv, ht, hr]
    rw [hfst] at hu
    obtain rfl : _ = u := Except.ok.inj hu
    refine ⟨rfl, ?_, ?_, ?_, ?_, ?_⟩ <;> rfl

/-- Every URL generated with state verification disabled carries no `state`
query parameter. -/
theorem generateInstallUrl_no_state_param (store : StateStore)
    (cfg : ProviderConfig) (options : InstallUrlOptions) (u : GeneratedUrl)
    (h : (generateInstallUrl store cfg options false).fst = .ok u) :
    u.query.lookup "state" = none := by
  by_cases hsc : options.scopes = []
  · simp [generateInstallUrl, hsc] at h
  · simp only [generateInstallUrl, if_neg hsc, if_neg (Bool.false_ne_true),
      Except.ok.injEq] at h
    subst h
    cases hv : cfg.authVersion <;> cases hrd : options.redirectUri <;>
      cases htm : options.teamId <;> by_cases hu : options.userScopes = [] <;>
        simp [hv, hrd, htm, hu, List.lookup]

/-- Claim C7: generating an install URL with state verification disabled
never invokes `StateStore.generateStateParam` and yields a URL without a
`state` query parameter; with state verification enabled,
`generateStateParam` is invoked exactly once, with exactly the given
options. -/
theorem generateInstallUrl_state_verification_calls (store : StateStore)
    (cfg : ProviderConfig) (options : InstallUrlOptions) :
    ((generateInstallUrl store cfg options false).snd = []
      ∧ ∀ u, (generateInstallUrl store cfg options false).fst = .ok u →
          u.query.lookup "state" = none)
    ∧ (options.scopes ≠ [] →
        (generateInstallUrl store cfg options true).snd = [options]) := by
  refine ⟨⟨?_, fun u hu => generateInstallUrl_no_state_param store cfg options u hu⟩, ?_⟩
  · by_cases hsc : options.scopes = [] <;> simp [generateInstallUrl, hsc]
  · intro hsc
    simp [generateInstallUrl, hsc]

/-- Claim C9: generateInstallUrl with empty scopes fails with
GenerateInstallUrlError, and handleInstallPath without usable install URL
options propagates that error to its caller with no response written. -/
theorem generateInstallUrl_empty_scopes_propagates :
    (∀ (store : StateStore) (cfg : ProviderConfig) (options : InstallUrlOptions)
        (sv : Bool), options.scopes = [] →
      (generateInstallUrl store cfg options sv).fst
        = .error .generateInstallUrlError)
    ∧ (∀ (store : StateStore) (cfg : ProviderConfig)
        (hook : Option (List (String × String) × Bool)),
      (cfg.installUrlOptions.getD defaultInstallUrlOptions).scopes = [] →
      handleInstallPath store cfg hook
        = (.error .generateInstallUrlError,
            { headers := [], redirectedTo := none })) := by
  constructor
  · intro store cfg options sv h
    simp [generateInstallUrl, h]
  · intro store cfg hook h
    simp [handleInstallPath, generateInstallUrl, h]

/-- Claim C8: authorize fails with AuthorizationError carrying the query as
context when the store has no record for the query (or the fetch rejects,
both modelled as `none`), and when a record exists it returns exactly that
record's projection (bot token, bot id, bot user id, user token) without
mutating the store. -/
theorem authorize_projection_correct :
    (∀ (fetchInstallation : InstallQuery → Option Installation)
        (q : InstallQuery),
      fetchInstallation q = none →
      authorize fetchInstallation q = .error (.authorizationError q))
    ∧ (∀ (fetchInstallation : InstallQuery → Option Installation)
        (q : InstallQuery) (i : Installation),
      fetchInstallation q = some i →
      authorize fetchInstallation q
        = .ok
            { botToken := i.botToken, botId := i.botId,
              botUserId := i.botUserId, userToken := i.userToken })
    ∧ (∀ (db : List (String × Installation)) (q : InstallQuery),
      (authorizeOnStore db q).snd = db) := by
  refine ⟨?_, ?_, ?_⟩
  · intro f q h
    simp [authorize, h]
  · intro f q i h
    simp [authorize, h, authorizeProjection]
  · intro db q
    rfl

/-- The Set-Cookie value spelled out with the cookie name and attribute
literals. -/
theorem stateCookieHeaderValue_eq (token : String) :
    stateCookieHeaderValue token
      = "slack-app-oauth-state=" ++ token
        ++ "; Secure; HttpOnly; Path=/; Max-Age=600" := by
  unfold stateCookieHeaderValue stateCookieName stateCookieAttributes
  rw [show ("slack-app-oauth-state" ++ "=" : String) = "slack-app-oauth-state="
      from rfl,
    String.append_assoc,
    show ("; " ++ "Secure; HttpOnly; Path=/; Max-Age=600" : String)
      = "; Secure; HttpOnly; Path=/; Max-Age=600" from rfl]

/-- Claim C10: the well-known state-cookie key is the literal
'slack-app-oauth-state'; handleInstallPath sets the cookie under exactly that
name with attributes 'Secure; HttpOnly; Path=/; Max-Age=600', and
handleCallback consults the cookie under the same name when comparing against
the query `state` value (a request whose cookie under that name matches never
yields CookieNotFoundError, and one whose cookie under that name is absent or
different always does, absent the legacy relaxation). -/
theorem state_cookie_name_consistent :
    stateCookieName = "slack-app-oauth-state"
    ∧ (∀ (store : StateStore) (cfg : ProviderConfig)
        (hookHeaders : List (String × String)),
      (cfg.installUrlOptions.getD defaultInstallUrlOptions).scopes ≠ [] →
      cfg.stateVerification = true →
      (handleInstallPath store cfg (some (hookHeaders, true))).snd.headers
        = hookHeaders
          ++ [("Set-Cookie",
            "slack-app-oauth-state="
              ++ store.generateStateParam
                  (cfg.installUrlOptions.getD defaultInstallUrlOptions)
              ++ "; Secure; HttpOnly; Path=/; Max-Age=600")])
    ∧ (∀ (cfg : ProviderConfig) (env : CallbackEnv) (o : CallbackOptions)
        (req : CallbackRequest) (c s : String),
      cfg.stateVerification = true → req.error = none → req.code = some c →
      req.state = some s →
      (List.lookup "slack-app-oauth-state" req.cookies = some s →
          ¬ (handleCallback cfg env o req).fst = .failed .cookieNotFoundError)
        ∧ (¬ List.lookup "slack-app-oauth-state" req.cookies = some s →
            cfg.legacyStateVerification = false →
            (handleCallback cfg env o req).fst
              = .failed .cookieNotFoundError)) := by
  refine ⟨rfl, ?_, ?_⟩
  · intro store cfg hookHeaders hsc hsv
    have hmain : (handleInstallPath store cfg (some (hookHeaders, true))).snd.headers
        = hookHeaders
          ++ [("Set-Cookie", stateCookieHeaderValue
              (store.generateStateParam
                (cfg.installUrlOptions.getD defaultInstallUrlOptions)))] := by
      simp [handleInstallPath, generateInstallUrl, hsc, hsv]
    rw [hmain, stateCookieHeaderValue_eq]
  · intro cfg env o req c s hsv herr hcode hstate
    constructor
    · intro hcm hbad
      cases hv : env.stateStore.verifyStateParam s with
      | none =>
        have hres : resolveInstallOptions cfg env.stateStore req
            = .error .stateVerificationError := by
          simp [resolveInstallOptions, hsv, hstate, stateCookieName, hcm, hv]
        rw [show (handleCallback cfg env o req).fst
            = .failed .stateVerificationError from by
          simp [handleCallback, herr, hcode, hres]] at hbad
        simp at hbad
      | some opts =>
        have hres : resolveInstallOptions cfg env.stateStore req
            = .ok (opts, [Ev.verifyState s]) := by
          simp [resolveInstallOptions, hsv, hstate, stateCookieName, hcm, hv]
        have hph : (installPhase env o c opts [Ev.verifyState s]).fst
            = .failed .cookieNotFoundError := by
          rw [show installPhase env o c opts [Ev.verifyState s]
              = handleCallback cfg env o req from by
            simp [handleCallback, herr, hcode, hres]]
          exact hbad
        have := (installPhase_failed_shape env o c opts [Ev.verifyState s]
          .cookieNotFoundError hph).1
        simp at this
    · intro hcm hleg
      have hres : resolveInstallOptions cfg env.stateStore req
          = .error .cookieNotFoundError := by
        simp [resolveInstallOptions, hsv, hstate, stateCookieName, hcm, hleg]
      simp [handleCallback, herr, hcode, hres]

/-! ### Witness fixtures -/

/-- A callback request whose state cookie matches the query state. -/
def reqMatched : CallbackRequest :=
  { code := some "fakeCode", state := some "fakeState"
    cookies := [(stateCookieName, "fakeState")] }

/-- A callback request whose state cookie differs from the query state. -/
def reqMismatch : CallbackRequest :=
  { code := some "fakeCode", state := some "fakeState"
    cookies := [(stateCookieName, "something-different")] }

/-- A callback request with no state cookie at all. -/
def reqNoCookie : CallbackRequest :=
  { code := some "fakeCode", state := some "fakeState" }

/-- A callback request with no `code` query parameter. -/
def reqNoCode : CallbackRequest := {}

/-- A callback request carrying the state only under a different cookie
name. -/
def reqWrongCookieName : CallbackRequest :=
  { code := some "fakeCode", state := some "fakeState"
    cookies := [("some-other-cookie", "fakeState")] }

/-- Callback options whose beforeInstallation hook returns false. -/
def cbOptionsBeforeFalse : CallbackOptions :=
  { hasSuccess := true, hasSuccessAsync := true, hasFailure := true
    hasFailureAsync := true, beforeInstallation := some false }

/-- Callback options whose afterInstallation hook returns false. -/
def cbOptionsAfterFalse : CallbackOptions :=
  { hasSuccess := true, hasSuccessAsync := true, hasFailure := true
    hasFailureAsync := true, beforeInstallation := some true
    afterInstallation := some false }

/-- The sample provider under the legacy (v1) protocol. -/
def sampleV1Config : ProviderConfig :=
  { clientId := "MY_ID", authVersion := .v1
    installUrlOptions := some sampleOptions }

/-- The URL generated for the sample options under the v1 protocol. -/
def sampleV1Url : GeneratedUrl :=
  { path := "/oauth/authorize"
    query := [("scope", "channels:read"), ("state", "fakeState"),
      ("client_id", "MY_ID"),
      ("redirect_uri", "https://mysite.com/slack/redirect"), ("team", "T12345")]
    stateToken := some "fakeState" }

/-- The URL generated for the sample options with state verification
disabled. -/
def sampleNoStateUrl : GeneratedUrl :=
  { path := "/oauth/v2/authorize"
    query := [("scope", "channels:read"), ("client_id", "MY_ID"),
      ("redirect_uri", "https://mysite.com/slack/redirect"), ("team", "T12345"),
      ("user_scope", "chat:write:user")]
    stateToken := none }

/-- An in-memory installation store holding the sample installation. -/
def sampleDB : List (String × Installation) :=
  [("test-team-id", sampleInstallation)]

/-- Install-URL options with no scopes. -/
def emptyScopesOptions : InstallUrlOptions := { scopes := [] }

/-- A provider configured without static install URL options. -/
def cfgNoUrlOptions : ProviderConfig := { clientId := "MY_ID" }

/-! ### Witnesses -/

/-- Witness for C1 at the test suite's concrete inputs. -/
theorem handleCallback_state_cookie_mismatch_witness :
    ((handleCallback sampleConfig sampleEnv sampleCbOptions reqMismatch).fst
        = .failed .cookieNotFoundError
      ∧ (handleCallback sampleConfig sampleEnv sampleCbOptions
          reqMismatch).snd.countP Ev.isFailureHook = 1)
    ∧ (handleCallback sampleLegacyConfig sampleEnv sampleCbOptions
        reqMismatch).fst = .succeeded := by
  constructor
  · have h := (handleCallback_state_cookie_mismatch sampleConfig sampleEnv
      sampleCbOptions reqMismatch "fakeCode" "fakeState" rfl rfl rfl rfl
      (by decide)).1 rfl
    exact ⟨h.1, h.2.1 rfl⟩
  · have h := (handleCallback_state_cookie_mismatch sampleLegacyConfig sampleEnv
      sampleCbOptions reqMismatch "fakeCode" "fakeState" rfl rfl rfl rfl
      (by decide)).2 rfl defaultInstallUrlOptions sampleInstallation rfl
      (by decide) (by decide) rfl rfl
    exact h.1

/-- Witness for C2 at the test suite's concrete inputs. -/
theorem handleCallback_success_hook_order_witness :
    (∃ pre, (handleCallback sampleConfig sampleEnv sampleCbOptions
        reqMatched).snd
        = pre ++ [Ev.storeInstallationCall, Ev.successHook, Ev.successAsyncHook]
      ∧ pre.countP Ev.isStoreInstallation = 0
      ∧ pre.countP Ev.isSuccessHook = 0
      ∧ pre.countP Ev.isSuccessAsyncHook = 0)
    ∧ ∃ pre2 x, (handleCallback sampleConfig sampleEnv sampleCbOptions
        reqNoCookie).snd
        = pre2 ++ [Ev.failureHook .cookieNotFoundError x,
            Ev.failureAsyncHook .cookieNotFoundError x]
      ∧ pre2.countP Ev.isFailureHook = 0
      ∧ pre2.countP Ev.isFailureAsyncHook = 0 := by
  have h := handleCallback_success_hook_order sampleConfig sampleEnv
    sampleCbOptions reqMatched "fakeCode" "fakeState" defaultInstallUrlOptions
    sampleInstallation rfl rfl rfl rfl (by decide) rfl (by decide) (by decide)
    rfl rfl rfl rfl
  exact ⟨h.1, h.2 reqNoCookie .cookieNotFoundError (by decide) rfl rfl⟩

/-- Witness for C3 at a concrete code-less request. -/
theorem handleCallback_missing_code_witness :
    (handleCallback sampleConfig sampleEnv sampleCbOptions reqNoCode).fst
        = .failed .missingCodeError
    ∧ (handleCallback sampleConfig sampleEnv sampleCbOptions
        reqNoCode).snd.countP Ev.isTokenExchange = 0
    ∧ (handleCallback sampleConfig sampleEnv sampleCbOptions
        reqNoCode).snd.countP Ev.isStoreInstallation = 0
    ∧ (handleCallback sampleConfig sampleEnv sampleCbOptions
        reqNoCode).snd.countP Ev.isFailureHook = 1
    ∧ (handleCallback sampleConfig sampleEnv sampleCbOptions
        reqNoCode).snd.countP Ev.isFailureAsyncHook = 1
    ∧ (handleCallback sampleConfig sampleEnv sampleCbOptions
        reqNoCode).snd.all Ev.failureOptionsDefined = true := by
  have h := handleCallback_missing_code sampleConfig sampleEnv sampleCbOptions
    reqNoCode rfl rfl
  exact ⟨h.1, h.2.1, h.2.2.1, h.2.2.2.1 rfl, h.2.2.2.2.1 rfl, by decide⟩

/-- Witness for C4 at a concrete request with a blocking beforeInstallation
hook. -/
theorem handleCallback_beforeInstallation_falsy_witness :
    (handleCallback sampleConfig sampleEnv cbOptionsBeforeFalse reqMatched).fst
        = .halted
    ∧ (handleCallback sampleConfig sampleEnv cbOptionsBeforeFalse
        reqMatched).snd
        = [Ev.verifyState "fakeState", Ev.beforeInstallationHook]
    ∧ (handleCallback sampleConfig sampleEnv cbOptionsBeforeFalse
        reqMatched).snd.countP Ev.isTokenExchange = 0
    ∧ (handleCallback sampleConfig sampleEnv cbOptionsBeforeFalse
        reqMatched).snd.countP Ev.isStoreInstallation = 0
    ∧ (handleCallback sampleConfig sampleEnv cbOptionsBeforeFalse
        reqMatched).snd.countP Ev.isSuccessHook = 0
    ∧ (handleCallback sampleConfig sampleEnv cbOptionsBeforeFalse
        reqMatched).snd.countP Ev.isFailureHook = 0 := by
  have h := handleCallback_beforeInstallation_falsy sampleConfig sampleEnv
    cbOptionsBeforeFalse reqMatched "fakeCode" defaultInstallUrlOptions
    [Ev.verifyState "fakeState"] rfl rfl (by decide) rfl
  exact ⟨h.1, by simpa using h.2.1, h.2.2.1, h.2.2.2.1, h.2.2.2.2.1,
    h.2.2.2.2.2.2.1⟩

/-- Witness for C5 at a concrete request with a blocking afterInstallation
hook. -/
theorem handleCallback_afterInstallation_falsy_witness :
    (handleCallback sampleConfig sampleEnv cbOptionsAfterFalse reqMatched).fst
        = .halted
    ∧ (handleCallback sampleConfig sampleEnv cbOptionsAfterFalse
        reqMatched).snd
        = [Ev.verifyState "fakeState", Ev.beforeInstallationHook,
            Ev.tokenExchange "fakeCode", Ev.afterInstallationHook]
    ∧ (handleCallback sampleConfig sampleEnv cbOptionsAfterFalse
        reqMatched).snd.countP Ev.isStoreInstallation = 0
    ∧ (handleCallback sampleConfig sampleEnv cbOptionsAfterFalse
        reqMatched).snd.countP Ev.isSuccessHook = 0
    ∧ (handleCallback sampleConfig sampleEnv cbOptionsAfterFalse
        reqMatched).snd.countP Ev.isSuccessAsyncHook = 0
    ∧ (handleCallback sampleConfig sampleEnv cbOptionsAfterFalse
        reqMatched).snd.countP Ev.isFailureHook = 0 := by
  have h := handleCallback_afterInstallation_falsy sampleConfig sampleEnv
    cbOptionsAfterFalse reqMatched "fakeCode" defaultInstallUrlOptions
    [Ev.verifyState "fakeState"] sampleInstallation rfl rfl (by decide)
    (by decide) rfl rfl
  exact ⟨h.1, by simpa using h.2.1, h.2.2.1, h.2.2.2.1, h.2.2.2.2.1,
    h.2.2.2.2.2.1⟩

/-- Witness for C6 at the test suite's concrete inputs, under both protocol
variants. -/
theorem generateInstallUrl_roundtrip_witness :
    (generateInstallUrl sampleStateStore sampleConfig sampleOptions true).fst
      = .ok
          { path := "/oauth/v2/authorize"
            query := [("scope", "channels:read"), ("state", "fakeState"),
              ("client_id", "MY_ID"),
              ("redirect_uri", "https://mysite.com/slack/redirect"),
              ("team", "T12345"), ("user_scope", "chat:write:user")]
            stateToken := some "fakeState" }
    ∧ sampleV1Url.path = "/oauth/authorize"
    ∧ sampleV1Url.query.lookup "user_scope" = none := by
  have h := generateInstallUrl_roundtrip sampleStateStore sampleConfig
    sampleOptions "T12345" "https://mysite.com/slack/redirect" (by decide)
    (by decide) rfl rfl
  have h2 := generateInstallUrl_roundtrip sampleStateStore sampleV1Config
    sampleOptions "T12345" "https://mysite.com/slack/redirect" (by decide)
    (by decide) rfl rfl
  have h3 := h2.2 rfl sampleV1Url (by decide)
  exact ⟨(h.1 rfl).1.trans (by decide), h3.1, h3.2.2.2.2.2⟩

/-- Witness for C7 at the test suite's concrete inputs. -/
theorem generateInstallUrl_state_verification_calls_witness :
    (generateInstallUrl sampleStateStore sampleConfig sampleOptions false).snd
        = []
    ∧ sampleNoStateUrl.query.lookup "state" = none
    ∧ (generateInstallUrl sampleStateStore sampleConfig sampleOptions true).snd
        = [sampleOptions] := by
  have h := generateInstallUrl_state_verification_calls sampleStateStore
    sampleConfig sampleOptions
  exact ⟨h.1.1, h.1.2 sampleNoStateUrl (by decide), h.2 (by decide)⟩

/-- Witness for C8 against the in-memory store of the test suite. -/
theorem authorize_projection_correct_witness :
    authorize (memFetchInstallation sampleDB)
        { teamId := some "non-existing-team-id" }
      = .error (.authorizationError { teamId := some "non-existing-team-id" })
    ∧ authorize (memFetchInstallation sampleDB) { teamId := some "test-team-id" }
      = .ok
          { botToken := some "botToken", botId := some "botId"
            botUserId := some "botUserId", userToken := some "userToken" }
    ∧ (authorizeOnStore sampleDB { teamId := some "test-team-id" }).snd
        = sampleDB := by
  have h := authorize_projection_correct
  refine ⟨h.1 _ _ (by decide), ?_, h.2.2 sampleDB _⟩
  have h2 := h.2.1 (memFetchInstallation sampleDB)
    { teamId := some "test-team-id" } sampleInstallation (by decide)
  exact h2.trans (by decide)

/-- Witness for C9 at concrete empty-scopes inputs. -/
theorem generateInstallUrl_empty_scopes_propagates_witness :
    (generateInstallUrl sampleStateStore sampleConfig emptyScopesOptions
        true).fst = .error .generateInstallUrlError
    ∧ handleInstallPath sampleStateStore cfgNoUrlOptions none
      = (.error .generateInstallUrlError,
          { headers := [], redirectedTo := none }) := by
  have h := generateInstallUrl_empty_scopes_propagates
  exact ⟨h.1 sampleStateStore sampleConfig emptyScopesOptions true rfl,
    h.2 sampleStateStore cfgNoUrlOptions none rfl⟩

/-- Witness for C10 at the test suite's concrete inputs. -/
theorem state_cookie_name_consistent_witness :
    stateCookieName = "slack-app-oauth-state"
    ∧ (handleInstallPath sampleStateStore sampleConfig
        (some ([], true))).snd.headers
      = [("Set-Cookie",
          "slack-app-oauth-state=fakeState; Secure; HttpOnly; Path=/; Max-Age=600")]
    ∧ ¬ (handleCallback sampleConfig sampleEnv sampleCbOptions reqMatched).fst
        = .failed .cookieNotFoundError
    ∧ (handleCallback sampleConfig sampleEnv sampleCbOptions
        reqWrongCookieName).fst = .failed .cookieNotFoundError := by
  have h := state_cookie_name_consistent
  have h2 := h.2.1 sampleStateStore sampleConfig [] (by decide) rfl
  have h3 := h.2.2 sampleConfig sampleEnv sampleCbOptions reqMatched
    "fakeCode" "fakeState" rfl rfl rfl rfl
  have h4 := h.2.2 sampleConfig sampleEnv sampleCbOptions reqWrongCookieName
    "fakeCode" "fakeState" rfl rfl rfl rfl
  exact ⟨h.1, h2.trans (by decide), h3.1 (by decide), h4.2 (by decide) rfl⟩

end SlackOAuth
